import Mathlib

/-!
# Verification of `s3-size-otel-monitoring` (src/main.py)

Shallow embedding of the two-stage pipeline in `src/main.py`:

* `get_s3_bucket_size_bytes` — paginated enumeration of an S3 bucket and
  summation of object sizes (lines 23–45);
* `send_metric` — construction of one OTLP gauge observation and a single
  `force_flush` (lines 48–68);
* `collect_metric` — sequential composition of the two (lines 70–94).

The external listing capability is modelled as the sequence of values the
boto3 page iterator yields: each page request either raises a client error
(endpoint unreachable, authentication rejected, …) or yields a page dict.
A page dict carries an optional `Contents` field (S3 omits it for
zero-object pages) and an optional continuation token.  Python integers
are arbitrary precision, so sizes and the accumulator are `Nat`; the
float division `total_size / 1024 / 1024` feeding only the progress print
is modelled in `ℚ`.
-/

/-- A reason the listing call itself fails (raised inside boto3's
`list_objects_v2` call before any page dict is produced). -/
inductive ClientReason where
  | unreachable
  | authRejected
  | other
  deriving DecidableEq, Repr

/-- The exceptions the embedded code can raise.  `clientError` is an error
raised by the listing capability (botocore `ClientError` / connection
error); `keyError` is Python's `KeyError` from unchecked dict access such
as `page['Contents']`; `exportError` exists only to state claims about the
export stage — the source never raises it. -/
inductive PyExn where
  | clientError (r : ClientReason)
  | keyError (k : String)
  | exportError
  deriving DecidableEq, Repr

/-- One page dict yielded by the boto3 page iterator:
`contents` is the optional `Contents` list (each item reduced to its
`Size` field, a non-negative integer) — S3 omits the field on
zero-object pages; `nextToken` is the optional continuation token. -/
structure S3Page where
  contents : Option (List Nat)
  nextToken : Option String
  deriving DecidableEq, Repr

/-- One step of the listing: what one page request produces — either the
page dict, or a raised client error. -/
abbrev PageResult := Except PyExn S3Page

/-- The inner loop of `get_s3_bucket_size_bytes` (src/main.py lines 37–41):
`total_size = 0; for page in page_iterator: items = page['Contents'];
for item in items: total_size += item['Size']`.  A raised client error
propagates; an absent `Contents` key raises `KeyError('Contents')`. -/
def sumPages (total : Nat) : List PageResult → Except PyExn Nat
  | [] => .ok total
  | .error e :: _ => .error e
  | .ok p :: rest =>
    match p.contents with
    | none => .error (.keyError "Contents")
    | some items => sumPages (total + items.sum) rest

/-- Output of `get_s3_bucket_size_bytes`: `printedMb` is the value
`mbSize = total_size / 1024 / 1024` interpolated into the progress print
(line 43–44); `returned` is the function's return value `total_size`
(line 45). -/
structure AggOutput where
  printedMb : ℚ
  returned : Nat
  deriving DecidableEq, Repr

/-- `get_s3_bucket_size_bytes` (src/main.py lines 23–45), as a function of
the sequence of page results the paginator yields. -/
def get_s3_bucket_size_bytes (pages : List PageResult) : Except PyExn AggOutput :=
  (sumPages 0 pages).map (fun total => ⟨(Nat.cast total : ℚ) / 1024 / 1024, total⟩)

/-- Spec-side definition (for comparison with the source): the sum over
all pages i and objects j of the size s_{i,j}.  A failing request and an
absent `Contents` field contribute zero here; the comparison theorems
restrict to listings where neither occurs. -/
def specTotalSize (pages : List PageResult) : Nat :=
  (pages.map (fun r =>
    match r with
    | .ok p => (p.contents.getD []).sum
    | .error _ => 0)).sum

/-- `true` iff the page request succeeded and the page carries a
`Contents` field (the case in which line 39's dict access succeeds). -/
def contentsPresent : PageResult → Bool
  | .ok p => p.contents.isSome
  | .error _ => false

/-- Every page request of the listing succeeds and carries `Contents`. -/
def goodListing (pages : List PageResult) : Bool :=
  pages.all contentsPresent

/-- `true` iff the exception is an error of the listing stage (raised by
the listing capability itself), as opposed to an undeclared crash such as
`KeyError` from unchecked field access. -/
def isListingError : PyExn → Bool
  | .clientError _ => true
  | _ => false

/-- Whether the collector accepts the flushed export: the outcome of
`provider.force_flush()` as seen by the OpenTelemetry SDK (the collector
endpoint is reachable and accepts, or the transmission fails). -/
inductive FlushOutcome where
  | success
  | failure
  deriving DecidableEq, Repr

/-- Observable effects of `send_metric` on the OpenTelemetry SDK:
`meter.create_gauge(name=..., description=...)` (line 63),
`s3_size_metric.set(amount=..., attributes=...)` (lines 64–67), and
`provider.force_flush()` (line 68) together with its outcome. -/
inductive OtelEvent where
  | createGauge (name description : String)
  | setGauge (amount : Nat) (attributes : List (String × String))
  | forceFlush (outcome : FlushOutcome)
  deriving DecidableEq, Repr

/-- `send_metric` (src/main.py lines 48–68): returns the ordered trace of
SDK events together with the function's result.  The source registers one
gauge named `otel_metric_name`, attaches one observation with the given
value and the attribute mapping passed through unchanged, and performs
one `force_flush` as its last action; the flush outcome is not inspected
and no exception is raised for an export failure (the SDK only logs it),
so the result is `.ok ()` in both outcomes. -/
def send_metric (serviceName endpoint metricName : String)
    (attributes : List (String × String)) (value : Nat)
    (flush : FlushOutcome) : List OtelEvent × Except PyExn Unit :=
  ([.createGauge metricName "Size of S3 bucket in bytes",
    .setGauge value attributes,
    .forceFlush flush], .ok ())

/-- `collect_metric` (src/main.py lines 70–94): runs the aggregation,
then hands its return value to `send_metric`.  A raised exception in the
aggregation propagates out of `collect_metric` before `send_metric` is
reached, so the event trace is empty in that case. -/
def collect_metric (pages : List PageResult)
    (serviceName endpoint metricName : String)
    (attributes : List (String × String))
    (flush : FlushOutcome) : List OtelEvent × Except PyExn Unit :=
  match get_s3_bucket_size_bytes pages with
  | .error e => ([], .error e)
  | .ok out =>
    send_metric serviceName endpoint metricName attributes out.returned flush

/-- The attribute sets carried by the observations in an SDK event
trace, in order. -/
def observationAttrs (trace : List OtelEvent) : List (List (String × String)) :=
  trace.filterMap fun e =>
    match e with
    | .setGauge _ a => some a
    | _ => none

/-- The pagination loop of `get_s3_bucket_size_bytes` (src/main.py lines
34–38) combined with the listing capability of spec §6: page requests are
issued one at a time, each next request driven by the continuation token
of the page just received, stopping at the first page whose token is
absent.  `lo i` is the page the listing capability returns for the i-th
request.  `fuel` bounds the number of requests still allowed, so that a
run that never reaches a token-free page is `none` for every fuel. -/
def paginate (lo : Nat → S3Page) : Nat → Nat → Option (List S3Page)
  | _, 0 => none
  | i, fuel + 1 =>
    match (lo i).nextToken with
    | none => some [lo i]
    | some _ => (paginate lo (i + 1) fuel).map (lo i :: ·)

-- Accumulator lemma for the summing loop.
theorem sumPages_good (pages : List PageResult) (h : goodListing pages = true)
    (total : Nat) : sumPages total pages = .ok (total + specTotalSize pages) := by
  induction pages generalizing total with
  | nil => simp [sumPages, specTotalSize]
  | cons r rest ih =>
    simp only [goodListing, List.all_cons, Bool.and_eq_true] at h
    match r with
    | .error e => simp [contentsPresent] at h
    | .ok p =>
      match hc : p.contents with
      | none => simp [contentsPresent, hc] at h
      | some items =>
        have hrest : goodListing rest = true := h.2
        simp only [sumPages, hc, ih hrest]
        simp [specTotalSize, hc, Nat.add_assoc]

-- The summing loop propagates the first failure, discarding the running total.
theorem sumPages_error (pre : List PageResult) (h : goodListing pre = true)
    (e : PyExn) (rest : List PageResult) (total : Nat) :
    sumPages total (pre ++ .error e :: rest) = .error e := by
  induction pre generalizing total with
  | nil => simp [sumPages]
  | cons r pre' ih =>
    simp only [goodListing, List.all_cons, Bool.and_eq_true] at h
    match r with
    | .error e' => simp [contentsPresent] at h
    | .ok p =>
      match hc : p.contents with
      | none => simp [contentsPresent, hc] at h
      | some items =>
        simp only [List.cons_append, sumPages, hc]
        exact ih h.2 _

-- A page lacking the `Contents` key aborts the loop with `KeyError`.
theorem sumPages_malformed (pre : List PageResult) (h : goodListing pre = true)
    (p : S3Page) (hp : p.contents = none) (rest : List PageResult) (total : Nat) :
    sumPages total (pre ++ .ok p :: rest) = .error (.keyError "Contents") := by
  induction pre generalizing total with
  | nil => simp [sumPages, hp]
  | cons r pre' ih =>
    simp only [goodListing, List.all_cons, Bool.and_eq_true] at h
    match r with
    | .error e' => simp [contentsPresent] at h
    | .ok q =>
      match hc : q.contents with
      | none => simp [contentsPresent, hc] at h
      | some items =>
        simp only [List.cons_append, sumPages, hc]
        exact ih h.2 _

-- A listing capability that returns a continuation token with every page
-- never lets the loop finish, whatever the request budget.
theorem paginate_nonstop (lo : Nat → S3Page)
    (h : ∀ i, ((lo i).nextToken).isSome = true) :
    ∀ fuel i, paginate lo i fuel = none := by
  intro fuel
  induction fuel with
  | zero => intro i; rfl
  | succ fuel ih =>
    intro i
    simp only [paginate]
    cases ht : (lo i).nextToken with
    | none =>
      have hs := h i
      rw [ht] at hs
      simp at hs
    | some t =>
      rw [ih (i + 1)]
      rfl

-- A first page without a token stops the loop after exactly that page.
theorem paginate_first (lo : Nat → S3Page) (h : (lo 0).nextToken = none)
    (fuel : Nat) : paginate lo 0 (fuel + 1) = some [lo 0] := by
  simp [paginate, h]

-- When the loop finishes, it has visited exactly the consecutive pages
-- starting from the first request, in order, each exactly once; every
-- page before the last carried a token and the last carried none.
theorem paginate_eq_some (lo : Nat → S3Page) :
    ∀ (fuel i : Nat) (l : List S3Page), paginate lo i fuel = some l →
      l ≠ [] ∧ l = (List.range l.length).map (fun j => lo (i + j)) ∧
      (∀ j, j + 1 < l.length → ((lo (i + j)).nextToken).isSome = true) ∧
      (lo (i + (l.length - 1))).nextToken = none := by
  intro fuel
  induction fuel with
  | zero => intro i l h; simp [paginate] at h
  | succ fuel ih =>
    intro i l h
    simp only [paginate] at h
    cases ht : (lo i).nextToken with
    | none =>
      rw [ht] at h
      simp only [Option.some.injEq] at h
      subst h
      refine ⟨by simp, by simp [List.range_succ], ?_, by simpa using ht⟩
      intro j hj
      simp only [List.length_cons, List.length_nil] at hj
      omega
    | some t =>
      rw [ht] at h
      simp only [Option.map_eq_some'] at h
      obtain ⟨l', hl', rfl⟩ := h
      obtain ⟨hne, hmap, htok, hlast⟩ := ih (i + 1) l' hl'
      have hlen : 1 ≤ l'.length := List.length_pos.mpr hne
      refine ⟨by simp, ?_, ?_, ?_⟩
      · simp only [List.length_cons, List.range_succ_eq_map, List.map_cons,
          List.map_map, Nat.add_zero, List.cons.injEq]
        refine ⟨trivial, ?_⟩
        have hfun : (fun j => lo (i + j)) ∘ Nat.succ = fun j => lo (i + 1 + j) := by
          funext j
          simp only [Function.comp]
          congr 1
          omega
        rw [hfun]
        exact hmap
      · intro j hj
        cases j with
        | zero => simp [ht]
        | succ k =>
          have hk : k + 1 < l'.length := by
            simpa [List.length_cons] using hj
          have : i + (k + 1) = i + 1 + k := by omega
          rw [this]
          exact htok k hk
      · have : i + ((lo i :: l').length - 1) = i + 1 + (l'.length - 1) := by
          simp only [List.length_cons]
          omega
        rw [this]
        exact hlast

/-- The spec's end-to-end scenario listing — three pages of sizes
`[1048576, 2097152]`, `[]`, `[5242880]`, the last with no further token —
with the zero-object middle page carrying a present (empty) `Contents`
list so that line 39's access succeeds. -/
def endToEndListing : List PageResult :=
  [.ok ⟨some [1048576, 2097152], some "token1"⟩,
   .ok ⟨some [], some "token2"⟩,
   .ok ⟨some [5242880], none⟩]

/-- C1 (counterexample): on an empty bucket the listing yields one page
with the `Contents` field absent; the claim demands total 0, but
`get_s3_bucket_size_bytes` raises `KeyError('Contents')` at line 39
instead of returning anything. -/
theorem C1_counterexample :
    get_s3_bucket_size_bytes [.ok ⟨none, none⟩] = .error (.keyError "Contents") := rfl

/-- C1 (amended): for every listing in which each page request succeeds
and each page carries a `Contents` list (possibly empty),
`get_s3_bucket_size_bytes` returns exactly the sum over all pages and
objects of the object sizes, with the megabyte value only in the print. -/
theorem C1_sum_over_present_pages (pages : List PageResult)
    (h : goodListing pages = true) :
    get_s3_bucket_size_bytes pages =
      .ok ⟨(Nat.cast (specTotalSize pages) : ℚ) / 1024 / 1024, specTotalSize pages⟩ := by
  simp [get_s3_bucket_size_bytes, sumPages_good pages h 0, Except.map]

/-- C1 (witness): the end-to-end scenario listing with all `Contents`
present sums to 8388608 bytes. -/
theorem C1_sum_over_present_pages_witness :
    goodListing endToEndListing = true ∧
    specTotalSize endToEndListing = 8388608 ∧
    get_s3_bucket_size_bytes endToEndListing =
      .ok ⟨(Nat.cast (specTotalSize endToEndListing) : ℚ) / 1024 / 1024,
        specTotalSize endToEndListing⟩ :=
  ⟨rfl, rfl, C1_sum_over_present_pages endToEndListing rfl⟩

/-- C2 (counterexample): a page whose object-list field is absent — the
shape the listing service returns for zero-object pages — does not
contribute zero: the aggregation fails with `KeyError('Contents')`. -/
theorem C2_counterexample :
    get_s3_bucket_size_bytes [.ok ⟨some [5242880], some "t"⟩, .ok ⟨none, none⟩] =
      .error (.keyError "Contents") := rfl

/-- C2 (amended): a page whose `Contents` field is present but empty
contributes zero to the running total and does not fail; only a page with
the field absent aborts the aggregation. -/
theorem C2_empty_contents_list_is_zero (tok : Option String) (rest : List PageResult) :
    get_s3_bucket_size_bytes (.ok ⟨some [], tok⟩ :: rest) =
      get_s3_bucket_size_bytes rest := rfl

/-- C3 (counterexample): a malformed page (missing the required
`Contents` field) makes `get_s3_bucket_size_bytes` raise
`KeyError('Contents')`, which is not an error of the listing stage but an
undeclared crash from unchecked field access. -/
theorem C3_counterexample :
    get_s3_bucket_size_bytes [.ok ⟨some [1], some "t1"⟩, .ok ⟨none, some "t2"⟩] =
      .error (.keyError "Contents") ∧
    isListingError (.keyError "Contents") = false :=
  ⟨rfl, rfl⟩

/-- C3 (amended): when the listing capability itself fails (unreachable,
authentication rejected, …) the aggregation propagates that client error
unchanged; but a malformed page raises `KeyError` — an undeclared crash,
not a declared listing-stage error. -/
theorem C3_failure_kinds :
    (∀ (r : ClientReason) (pre rest : List PageResult), goodListing pre = true →
      get_s3_bucket_size_bytes (pre ++ .error (.clientError r) :: rest) =
        .error (.clientError r)) ∧
    (∀ (pre rest : List PageResult) (p : S3Page), goodListing pre = true →
      p.contents = none →
      get_s3_bucket_size_bytes (pre ++ .ok p :: rest) =
        .error (.keyError "Contents")) := by
  constructor
  · intro r pre rest h
    simp [get_s3_bucket_size_bytes, sumPages_error pre h, Except.map]
  · intro pre rest p h hp
    simp [get_s3_bucket_size_bytes, sumPages_malformed pre h p hp, Except.map]

/-- C3 (witness): a concrete unreachable-endpoint failure propagates as
the client error, and a concrete malformed page yields the `KeyError`. -/
theorem C3_failure_kinds_witness :
    goodListing [.ok ⟨some [7], some "t"⟩] = true ∧
    get_s3_bucket_size_bytes
        [.ok ⟨some [7], some "t"⟩, .error (.clientError .unreachable)] =
      .error (.clientError .unreachable) ∧
    get_s3_bucket_size_bytes
        [.ok ⟨some [2], some "u"⟩, .ok ⟨none, some "v"⟩] =
      .error (.keyError "Contents") :=
  ⟨rfl,
   C3_failure_kinds.1 .unreachable [.ok ⟨some [7], some "t"⟩] [] rfl,
   C3_failure_kinds.2 [.ok ⟨some [2], some "u"⟩] [] ⟨none, some "v"⟩ rfl rfl⟩

/-- C4 (counterexample): a total of 2^64 bytes exceeds the maximum of
every 64-bit accumulator whose range covers 2^63, yet the code returns
the exact value instead of raising `OverflowError` — the Python
accumulator is arbitrary precision and the source has no overflow check
at all. -/
theorem C4_counterexample :
    (get_s3_bucket_size_bytes [.ok ⟨some [2 ^ 64], none⟩]).map AggOutput.returned =
      .ok (2 ^ 64) ∧
    2 ^ 63 - 1 < 2 ^ 64 := by
  constructor
  · rfl
  · norm_num

/-- C4 (amended): the accumulator is arbitrary precision — for every
listing whose pages are all well-formed, the exact total is returned,
however large, and no error (in particular no overflow error) is ever
raised; sums are never wrapped or truncated. -/
theorem C4_no_overflow (pages : List PageResult) (h : goodListing pages = true) :
    (get_s3_bucket_size_bytes pages).map AggOutput.returned =
      .ok (specTotalSize pages) ∧
    ∀ e : PyExn, get_s3_bucket_size_bytes pages ≠ .error e := by
  have hs := sumPages_good pages h 0
  constructor
  · simp [get_s3_bucket_size_bytes, hs, Except.map]
  · intro e
    simp [get_s3_bucket_size_bytes, hs, Except.map]

/-- C4 (witness): a listing totalling 2^64 + 1 bytes — beyond 2^63 — is
summed exactly with no error. -/
theorem C4_no_overflow_witness :
    goodListing [.ok ⟨some [2 ^ 64, 1], none⟩] = true ∧
    2 ^ 63 < specTotalSize [.ok ⟨some [2 ^ 64, 1], none⟩] ∧
    ((get_s3_bucket_size_bytes [.ok ⟨some [2 ^ 64, 1], none⟩]).map AggOutput.returned =
        .ok (specTotalSize [.ok ⟨some [2 ^ 64, 1], none⟩]) ∧
      ∀ e : PyExn, get_s3_bucket_size_bytes [.ok ⟨some [2 ^ 64, 1], none⟩] ≠ .error e) :=
  ⟨rfl, by decide, C4_no_overflow _ rfl⟩

/-- C5: the pagination loop consumes pages until one with an absent
continuation token: a listing capability that returns a token with every
page makes the loop request forever (no budget suffices), one whose first
page has no token stops the loop after exactly that page, and whenever
the loop finishes it has visited exactly the consecutive pages from the
first request, in order, each exactly once, with the last (and only the
last) page lacking a token. -/
theorem C5_pagination :
    (∀ lo : Nat → S3Page, (∀ i, ((lo i).nextToken).isSome = true) →
      ∀ fuel i, paginate lo i fuel = none) ∧
    (∀ lo : Nat → S3Page, (lo 0).nextToken = none →
      ∀ fuel, paginate lo 0 (fuel + 1) = some [lo 0]) ∧
    (∀ (lo : Nat → S3Page) (fuel i : Nat) (l : List S3Page),
      paginate lo i fuel = some l →
      l ≠ [] ∧ l = (List.range l.length).map (fun j => lo (i + j)) ∧
      (∀ j, j + 1 < l.length → ((lo (i + j)).nextToken).isSome = true) ∧
      (lo (i + (l.length - 1))).nextToken = none) :=
  ⟨paginate_nonstop, paginate_first, paginate_eq_some⟩

/-- C5 (witness): a capability always returning a token leaves the loop
unfinished at budget 5, and one whose first page has no token stops with
exactly that page. -/
theorem C5_pagination_witness :
    paginate (fun _ => ⟨some [], some "t"⟩) 0 5 = none ∧
    paginate (fun _ => ⟨some [3], none⟩) 0 4 = some [⟨some [3], none⟩] :=
  ⟨C5_pagination.1 (fun _ => ⟨some [], some "t"⟩) (fun _ => rfl) 5 0,
   C5_pagination.2.1 (fun _ => ⟨some [3], none⟩) rfl 3⟩

/-- C6: if any page request fails, the aggregation propagates that
failure and returns no partial sum, even when prior pages were already
summed successfully. -/
theorem C6_fail_fast (pre : List PageResult) (h : goodListing pre = true)
    (e : PyExn) (rest : List PageResult) :
    get_s3_bucket_size_bytes (pre ++ .error e :: rest) = .error e := by
  simp [get_s3_bucket_size_bytes, sumPages_error pre h, Except.map]

/-- C6 (witness): an authentication failure on the second page request
makes the aggregation fail even though page one summed to 10. -/
theorem C6_fail_fast_witness :
    goodListing [.ok ⟨some [10], some "t"⟩] = true ∧
    get_s3_bucket_size_bytes
        [.ok ⟨some [10], some "t"⟩, .error (.clientError .authRejected),
         .ok ⟨some [99], none⟩] =
      .error (.clientError .authRejected) :=
  ⟨rfl,
   C6_fail_fast [.ok ⟨some [10], some "t"⟩] rfl (.clientError .authRejected)
     [.ok ⟨some [99], none⟩]⟩

/-- C7: if the aggregation stage fails, `send_metric` is never invoked —
`collect_metric` produces no SDK event at all and propagates the
aggregation error. -/
theorem C7_no_export_on_aggregation_failure (pages : List PageResult)
    (serviceName endpoint metricName : String)
    (attributes : List (String × String)) (flush : FlushOutcome) (e : PyExn)
    (h : get_s3_bucket_size_bytes pages = .error e) :
    collect_metric pages serviceName endpoint metricName attributes flush =
      ([], .error e) := by
  simp [collect_metric, h]

/-- C7 (witness): the spec's end-to-end failure scenario — the second
page request is rejected for authentication — yields no metric event. -/
theorem C7_no_export_on_aggregation_failure_witness :
    get_s3_bucket_size_bytes
        [.ok ⟨some [1], some "t"⟩, .error (.clientError .authRejected)] =
      .error (.clientError .authRejected) ∧
    collect_metric [.ok ⟨some [1], some "t"⟩, .error (.clientError .authRejected)]
        "s3_monitoring" "http://localhost:4317" "s3_size"
        [("namespace", "monitoring"), ("role", "metrics")] .success =
      ([], .error (.clientError .authRejected)) :=
  ⟨rfl,
   C7_no_export_on_aggregation_failure _ "s3_monitoring" "http://localhost:4317"
     "s3_size" [("namespace", "monitoring"), ("role", "metrics")] .success
     (.clientError .authRejected) rfl⟩

/-- C8 (counterexample): when the flush fails (collector unreachable),
`send_metric` still returns normally — no `ExportError` is raised; the
source ignores the outcome of `provider.force_flush()`. -/
theorem C8_counterexample :
    (send_metric "s3_monitoring" "http://localhost:4317" "s3_size"
        [("namespace", "monitoring")] 8388608 .failure).2 = .ok () ∧
    ((.ok () : Except PyExn Unit) ≠ .error .exportError) :=
  ⟨rfl, fun h => Except.noConfusion h⟩

/-- C8 (amended): every call to `send_metric` registers exactly one gauge
instrument named `metricName`, attaches exactly one observation, and
performs exactly one flush as its final action before returning — but it
returns successfully whatever the flush outcome, never raising an
export error. -/
theorem C8_single_flush_no_raise (serviceName endpoint metricName : String)
    (attributes : List (String × String)) (value : Nat) (flush : FlushOutcome) :
    send_metric serviceName endpoint metricName attributes value flush =
      ([.createGauge metricName "Size of S3 bucket in bytes",
        .setGauge value attributes,
        .forceFlush flush], .ok ()) := rfl

/-- C9: the caller-supplied attribute mapping is passed through to the
emitted observation verbatim — the single observation in the trace
carries exactly the given key/value pairs, nothing added, removed or
rewritten. -/
theorem C9_attributes_verbatim (serviceName endpoint metricName : String)
    (attributes : List (String × String)) (value : Nat) (flush : FlushOutcome) :
    observationAttrs
        (send_metric serviceName endpoint metricName attributes value flush).1 =
      [attributes] := rfl

/-- C10: on a successful aggregation the value handed to the export stage
is exactly the integer byte total returned by `get_s3_bucket_size_bytes`;
the division by 1024 twice exists only in the printed progress value. -/
theorem C10_reported_value_is_exact_total (pages : List PageResult)
    (serviceName endpoint metricName : String)
    (attributes : List (String × String)) (flush : FlushOutcome)
    (out : AggOutput) (h : get_s3_bucket_size_bytes pages = .ok out) :
    collect_metric pages serviceName endpoint metricName attributes flush =
      ([.createGauge metricName "Size of S3 bucket in bytes",
        .setGauge out.returned attributes,
        .forceFlush flush], .ok ()) ∧
    out.printedMb = (Nat.cast out.returned : ℚ) / 1024 / 1024 := by
  constructor
  · simp [collect_metric, h, send_metric]
  · unfold get_s3_bucket_size_bytes at h
    cases hs : sumPages 0 pages with
    | error e =>
      rw [hs] at h
      simp [Except.map] at h
    | ok t =>
      rw [hs] at h
      simp only [Except.map, Except.ok.injEq] at h
      rw [← h]

/-- C10 (witness): the end-to-end scenario reports exactly 8388608 bytes
while the printed value is 8388608 / 1024 / 1024 megabytes. -/
theorem C10_reported_value_is_exact_total_witness :
    get_s3_bucket_size_bytes endToEndListing =
      .ok ⟨(Nat.cast 8388608 : ℚ) / 1024 / 1024, 8388608⟩ ∧
    collect_metric endToEndListing "s3_monitoring" "http://localhost:4317"
        "s3_size" [("role", "metrics")] .success =
      ([.createGauge "s3_size" "Size of S3 bucket in bytes",
        .setGauge 8388608 [("role", "metrics")],
        .forceFlush .success], .ok ()) :=
  ⟨rfl,
   (C10_reported_value_is_exact_total endToEndListing "s3_monitoring"
      "http://localhost:4317" "s3_size" [("role", "metrics")] .success
      ⟨(Nat.cast 8388608 : ℚ) / 1024 / 1024, 8388608⟩ rfl).1⟩
